import Mathlib

/-!
Verification of the question-fetch orchestration core of the Flask trivia
dashboard (`app.py`, `utils.py`, `models.py`).

Modelling conventions for the shallow embedding:
* Python floats (scores, wall-clock seconds) are modelled as rationals `ℚ`;
  wall-clock instants used only for cache TTL comparisons are `ℤ` seconds.
* `int(s)` on a string is modelled by `pyInt?` (strip whitespace, optional
  sign, decimal digits); failure (`ValueError`/`TypeError`) is `none`.
* The response cache is keyed by the parameter record itself: `get_cache_key`
  is an injective encoding (md5 of the JSON of the sorted parameter items),
  so keying by the parameters directly is the same map.
* The HTTP layer is abstracted by a stream of per-attempt outcomes
  `Nat → AttemptOutcome`; `response.json()` failures fall under the
  `requestException` case (requests raises a `RequestException` subclass).
* The thread-pool in the mixed-difficulty orchestrator completes futures in
  an arbitrary order; the model collects tier results in submission order
  (easy, medium, hard), one fetch per submitted task.
* `random.shuffle` is modelled by an explicit shuffle function parameter;
  theorems that depend on it assume only that it permutes its input.
-/

namespace Trivia

/-- Characters of a string with surrounding whitespace removed, as Python
`str.strip()` does. -/
def stripChars (l : List Char) : List Char :=
  ((l.dropWhile Char.isWhitespace).reverse.dropWhile Char.isWhitespace).reverse

/-- Python `str.strip()`. -/
def pyStrip (s : String) : String :=
  ⟨stripChars s.data⟩

/-- Decimal digit run to a number; `none` on an empty run or a non-digit. -/
def digitsToNat? (cs : List Char) : Option Nat :=
  match cs with
  | [] => none
  | _ =>
    if cs.all Char.isDigit then
      some (cs.foldl (fun n c => n * 10 + (c.toNat - '0'.toNat)) 0)
    else none

/-- Signed decimal integer from a stripped character list. -/
def pyIntCore? (cs : List Char) : Option Int :=
  match cs with
  | '+' :: rest => (digitsToNat? rest).map (fun n => (n : Int))
  | '-' :: rest => (digitsToNat? rest).map (fun n => -(n : Int))
  | _ => (digitsToNat? cs).map (fun n => (n : Int))

/-- Model of Python `int(s)` on a string: strip surrounding whitespace, then
an optional sign followed by decimal digits; anything else raises
`ValueError`, modelled as `none`. -/
def pyInt? (s : String) : Option Int :=
  pyIntCore? (stripChars s.data)

/-- Model of `utils.validate_amount`: parse the string, require the value in [1, 50];
out-of-range and non-numeric input raise `ValueError` (modelled as `.error`). -/
def validate_amount (amount_str : String) : Except String Int :=
  match pyInt? amount_str with
  | none => .error "Amount must be a valid integer"
  | some amount =>
    if amount < 1 ∨ amount > 50 then .error "Amount must be between 1 and 50"
    else .ok amount

/-- Model of `utils.get_response_code_message`, applied to `data.get('response_code')`
(which is `None` when the key is absent, hence the `Option`). -/
def get_response_code_message (code : Option Int) : String :=
  match code with
  | some 0 => "Success"
  | some 1 => "No results - Not enough questions for your query"
  | some 2 => "Invalid parameter - Check your request parameters"
  | some 3 => "Token not found - Session token is invalid"
  | some 4 => "Token empty - All questions have been used, reset token"
  | some 5 => "Rate limit - Too many requests"
  | some n => "Unknown error code: " ++ toString n
  | none => "Unknown error code: None"

/-- Model of `utils.shuffle_answers`: prepend the correct answer to the incorrect ones,
shuffle in place (the permutation actually produced by `random.shuffle` is
passed in as the already-shuffled list), then locate the correct answer by
value with `list.index` (first occurrence). -/
def shuffle_answers (shuffled : List String) (correct_answer : String) :
    List String × Nat :=
  (shuffled, shuffled.indexOf correct_answer)

/-! ## Fetch client (`app.fetch_trivia_questions` and the response cache) -/

/-- A raw question as delivered inside the upstream JSON envelope. -/
structure RawQuestion where
  category : String
  difficulty : String
  qtype : String
  question : String
  correct_answer : String
  incorrect_answers : List String
deriving DecidableEq, Inhabited

/-- The parsed JSON envelope: `data.get('response_code')` may be absent
(`none`) and `data.get('results', [])` defaults to the empty list. -/
structure Envelope where
  response_code : Option Int
  results : List RawQuestion
deriving DecidableEq, Inhabited

/-- The query parameters sent to the upstream API; optional keys are absent
(`none`) exactly when the source omits them from the `params` dict. -/
structure ApiParams where
  amount : Nat
  difficulty : Option String
  qtype : Option String
  encode : Option String
  category : Option Int
deriving DecidableEq, Inhabited

/-- The `data` component of the fetch client's return value: either the parsed
envelope (HTTP 200) or the `{'error': msg}` dict built on failure. -/
inductive RespData where
  | payload (env : Envelope)
  | failure (error : String)
deriving DecidableEq, Inhabited

/-- Accessor for `data.get('error')`. -/
def RespData.errorField : RespData → Option String
  | .failure e => some e
  | .payload _ => none

/-- Accessor for `data.get('response_code')`. -/
def RespData.responseCode : RespData → Option Int
  | .payload env => env.response_code
  | .failure _ => none

/-- Accessor for `data.get('results', [])`. -/
def RespData.resultsField : RespData → List RawQuestion
  | .payload env => env.results
  | .failure _ => []

/-- The process-wide response cache `api_cache` together with
`cache_timestamps`, keyed by the (injectively encoded) parameters. -/
abbrev Cache : Type := ApiParams → Option (Envelope × Int)

def CACHE_TTL : Int := 300

def API_RETRIES : Nat := 1

/-- Model of `app.get_cached_response`: a hit only while `now - timestamp < CACHE_TTL`. -/
def get_cached_response (cache : Cache) (p : ApiParams) (now : Int) :
    Option Envelope :=
  match cache p with
  | some (env, ts) => if now - ts < CACHE_TTL then some env else none
  | none => none

/-- Model of `app.set_cached_response`: store the payload with the current time. -/
def set_cached_response (cache : Cache) (p : ApiParams) (env : Envelope)
    (now : Int) : Cache :=
  fun q => if q = p then some (env, now) else cache q

/-- What a single `requests.get` attempt produces: an HTTP response with a
parsed body, a timeout, a connection error, or some other
`requests.RequestException` (which includes JSON decoding failures). -/
inductive AttemptOutcome where
  | httpResponse (status : Nat) (body : Envelope)
  | timeout
  | connectionError
  | requestException (msg : String)
deriving DecidableEq, Inhabited

/-- Result of the retry loop, instrumented with the cache writes performed,
the number of attempts issued and the number of backoff sleeps. -/
structure LoopOut where
  ok : Bool
  data : RespData
  writes : List (ApiParams × Envelope)
  attemptsUsed : Nat
  sleeps : Nat
deriving DecidableEq, Inhabited

/-- The failure return `(False, {'error': last_error or 'Max retries
exceeded'}, ...)`. -/
def failOut (last_error : Option String) (attempts sleeps : Nat) : LoopOut :=
  { ok := false, data := .failure (last_error.getD "Max retries exceeded"),
    writes := [], attemptsUsed := attempts, sleeps := sleeps }

/-- The `for attempt in range(API_RETRIES + 1)` loop of
`fetch_trivia_questions`. `i` is the current attempt index and `remaining`
the number of retries still allowed (`remaining > 0` iff
`attempt < API_RETRIES`); a timeout or connection error sleeps for the
backoff and retries, any HTTP response or other request exception ends the
loop. A 200 response is cached when its envelope's `response_code` is 0. -/
def runAttempts (outcomes : Nat → AttemptOutcome) (p : ApiParams) :
    Nat → Nat → Nat → LoopOut
  | i, remaining, sleeps =>
    match outcomes i with
    | .httpResponse status env =>
      if status = 200 then
        { ok := true, data := .payload env,
          writes := if env.response_code = some 0 then [(p, env)] else [],
          attemptsUsed := i + 1, sleeps := sleeps }
      else if status = 429 then failOut (some "Rate limited by API") (i + 1) sleeps
      else failOut (some ("HTTP " ++ toString status)) (i + 1) sleeps
    | .timeout =>
      match remaining with
      | r + 1 => runAttempts outcomes p (i + 1) r (sleeps + 1)
      | 0 => failOut (some "Request timeout") (i + 1) sleeps
    | .connectionError =>
      match remaining with
      | r + 1 => runAttempts outcomes p (i + 1) r (sleeps + 1)
      | 0 => failOut (some "Connection error") (i + 1) sleeps
    | .requestException msg => failOut (some msg) (i + 1) sleeps

/-- Apply the recorded cache writes (`set_cached_response` calls) in order. -/
def apply_writes (writes : List (ApiParams × Envelope)) (cache : Cache)
    (now : Int) : Cache :=
  writes.foldl (fun c w => set_cached_response c w.1 w.2 now) cache

/-- Full result of `app.fetch_trivia_questions`, including the cache after
the call and the instrumentation of the loop. -/
structure FetchOut where
  ok : Bool
  data : RespData
  latency : Nat
  cache : Cache
  writes : List (ApiParams × Envelope)
  attemptsUsed : Nat
  sleeps : Nat
  cacheHit : Bool

/-- Model of `app.fetch_trivia_questions`: serve a valid cache entry immediately with
zero latency when `use_cache` is set, otherwise run the retry loop against
the abstract per-attempt outcomes and apply its cache writes. `elapsedMs` is
the measured wall-clock latency of the non-cached path. -/
def fetch_trivia_questions (p : ApiParams) (use_cache : Bool) (cache : Cache)
    (now : Int) (outcomes : Nat → AttemptOutcome) (elapsedMs : Nat) : FetchOut :=
  match (if use_cache then get_cached_response cache p now else none) with
  | some env =>
    { ok := true, data := .payload env, latency := 0, cache := cache,
      writes := [], attemptsUsed := 0, sleeps := 0, cacheHit := true }
  | none =>
    let L := runAttempts outcomes p 0 API_RETRIES 0
    { ok := L.ok, data := L.data, latency := elapsedMs,
      cache := apply_writes L.writes cache now, writes := L.writes,
      attemptsUsed := L.attemptsUsed, sleeps := L.sleeps, cacheHit := false }

/-- The cache invariant of interest: every stored envelope reports success. -/
def cache_success_inv (cache : Cache) : Prop :=
  ∀ p env ts, cache p = some (env, ts) → env.response_code = some 0

/-! ## Mixed-difficulty orchestrator (`app.fetch_mixed_difficulty_questions`) -/

/-- The per-tier parameter dict built inside the orchestrator: `type` and
`encode` are included only when non-empty, `category` only when it is a
non-empty string that parses as an integer. -/
def mixedTierParams (count : Nat) (difficulty : String)
    (category q_type encode : String) : ApiParams :=
  { amount := count, difficulty := some difficulty,
    qtype := if q_type ≠ "" then some q_type else none,
    encode := if encode ≠ "" then some encode else none,
    category := if category ≠ "" then pyInt? category else none }

/-- The `fetch_tasks` list: one `(difficulty, count, params)` task per tier of
`['easy', 'medium', 'hard']` whose requested count is non-zero. -/
def fetchTasks (counts : String → Nat) (category q_type encode : String) :
    List (String × Nat × ApiParams) :=
  (["easy", "medium", "hard"].filter (fun d => counts d != 0)).map
    (fun d => (d, counts d, mixedTierParams (counts d) d category q_type encode))

/-- The outcome of one tier's future: the fetch client's `(success, data)`
pair, or an exception raised out of `future.result()`. -/
inductive TierOutcome where
  | result (ok : Bool) (data : RespData)
  | exn (msg : String)
deriving DecidableEq, Inhabited

/-- Processing of one completed tier future in the orchestrator's collection
loop: the questions it contributes to `all_questions` and the messages it
contributes to `errors`. -/
def collectTier (difficulty : String) (count : Nat) :
    TierOutcome → List RawQuestion × List String
  | .exn msg =>
    ([], ["Exception fetching " ++ difficulty ++ " questions: " ++ msg])
  | .result ok data =>
    if ok = false then
      ([], ["Failed to fetch " ++ difficulty ++ " questions: " ++
            (data.errorField.getD "Unknown error")])
    else if data.responseCode ≠ some 0 then
      ([], ["API Error for " ++ difficulty ++ " questions: " ++
            get_response_code_message data.responseCode])
    else
      let questions := data.resultsField
      if questions.length < count then
        ((if questions = [] then [] else questions),
         ["Not enough " ++ difficulty ++ " questions available (requested " ++
          toString count ++ ", got " ++ toString questions.length ++ ")"])
      else (questions, [])

/-- The collection phase of the orchestrator: the combined `all_questions`
and `errors` lists over all submitted tier tasks. -/
def mixedCollect (counts : String → Nat) (category q_type encode : String)
    (outcome : String → TierOutcome) : List RawQuestion × List String :=
  let collected := (fetchTasks counts category q_type encode).map
    (fun t => collectTier t.1 t.2.1 (outcome t.1))
  ((collected.map Prod.fst).flatten, (collected.map Prod.snd).flatten)

/-- Model of `app.fetch_mixed_difficulty_questions`: non-empty combined questions are
shuffled and returned as success (with a partial-failure warning when some
tier reported an error); an empty combination is a failure carrying the
joined tier errors, or a generic message when there are none. -/
def fetch_mixed_difficulty_questions (counts : String → Nat)
    (category q_type encode : String) (outcome : String → TierOutcome)
    (shuffle : List RawQuestion → List RawQuestion) :
    Bool × List RawQuestion × String :=
  let c := mixedCollect counts category q_type encode outcome
  let all_questions := c.1
  let errors := c.2
  if all_questions ≠ [] then
    let shuffled := shuffle all_questions
    if errors ≠ [] then
      (true, shuffled,
       "Got " ++ toString shuffled.length ++
       " questions, but some requests failed: " ++
       String.intercalate "; " errors)
    else (true, shuffled, "")
  else if errors ≠ [] then (false, [], String.intercalate " | " errors)
  else (false, [], "No questions could be fetched")

/-! ## Game session state machine (`app.answer`, `app.results`,
`app.leaderboard`) -/

/-- A processed question stored in the session. -/
structure ProcessedQuestion where
  category : String
  difficulty : String
  qtype : String
  question : String
  answers : List String
  correct_index : Nat
deriving DecidableEq, Inhabited

/-- The `params` snapshot kept in the session: `difficulty` is absent from
the dict in single mode when unspecified; the tier counts are kept for mixed
mode. -/
structure GameParams where
  difficulty : Option String
  easy : Nat
  medium : Nat
  hard : Nat
deriving DecidableEq, Inhabited

/-- The `session['game']` record. -/
structure Game where
  questions : List ProcessedQuestion
  index : Nat
  score : ℚ
  started_at : String
  params : GameParams
  question_times : List ℚ
deriving DecidableEq, Inhabited

/-- Where a route handler sends the browser next. -/
inductive Redirect where
  | toIndex
  | toQuestion
  | toResults
  | toLeaderboard
deriving DecidableEq, Inhabited

/-- Result of one POST to `/answer`: the session game afterwards, the
remaining `question_start_time` marker, the flash message, and the redirect. -/
structure AnswerOut where
  game : Option Game
  question_start_time : Option ℚ
  flash : Option (String × String)
  redirect : Redirect
deriving DecidableEq, Inhabited

/-- Model of `app.answer`: validate the session, record the elapsed time (zero when
the start marker is absent, since both `time.time()` reads coincide in the
model), score the submitted index against the stored correct index with a
+1 (+0.2 under 5 seconds) increment on a match, and advance the index
unconditionally; a finished game redirects to the results page. -/
def answer (sessionGame : Option Game) (question_start_time : Option ℚ)
    (now : ℚ) (user_answer : Option String) : AnswerOut :=
  match sessionGame with
  | none =>
    { game := none, question_start_time := question_start_time,
      flash := some ("No active game", "warning"), redirect := .toIndex }
  | some game =>
    if game.questions = [] then
      { game := some game, question_start_time := question_start_time,
        flash := some ("No active game", "warning"), redirect := .toIndex }
    else if game.questions.length ≤ game.index then
      { game := some game, question_start_time := question_start_time,
        flash := none, redirect := .toResults }
    else
      let current_question := game.questions.getD game.index default
      let time_taken := now - question_start_time.getD now
      let times := game.question_times ++ [time_taken]
      let finish := fun (score : ℚ) (flash : String × String) =>
        let game2 : Game :=
          { game with score := score, question_times := times,
                      index := game.index + 1 }
        { game := some game2, question_start_time := none,
          flash := some flash,
          redirect := if game.questions.length ≤ game.index + 1 then
            Redirect.toResults else Redirect.toQuestion }
      match user_answer.bind pyInt? with
      | some user_answer_index =>
        if user_answer_index = (current_question.correct_index : Int) then
          let score1 := game.score + 1
          let score2 := if time_taken < 5 then score1 + 1/5 else score1
          finish score2 ("Correct!", "success")
        else
          finish game.score
            ("Wrong! The correct answer was: " ++
             current_question.answers.getD current_question.correct_index "",
             "danger")
      | none => finish game.score ("Invalid answer", "danger")

/-- A row inserted into the `scores` table by `models.save_score`. -/
structure LeaderboardEntry where
  name : String
  score : Int
  total : Nat
  accuracy : ℚ
  difficulty : String
deriving DecidableEq, Inhabited

/-- Python `int()` applied to a float/rational: truncation toward zero. -/
def pyIntOfRat (q : ℚ) : Int :=
  q.num.tdiv (q.den : Int)

/-- The difficulty label stored with a score: the mixed-mode breakdown
string, or the single difficulty defaulting to `'any'`. -/
def difficultyLabel (p : GameParams) : String :=
  if p.difficulty = some "mixed" then
    "mixed (E:" ++ toString p.easy ++ "/M:" ++ toString p.medium ++ "/H:" ++
    toString p.hard ++ ")"
  else p.difficulty.getD "any"

/-- Result of one POST to `/results`: the `save_score` calls issued, the
flash, the session game afterwards, and the redirect (`none` renders the
results page in place). -/
structure ResultsOut where
  saves : List LeaderboardEntry
  flash : Option (String × String)
  game : Option Game
  redirect : Option Redirect
deriving DecidableEq, Inhabited

/-- Model of `app.results` (POST branch): a blank (stripped) name is rejected with a
flash and no persistence; otherwise one row is saved with the truncated
score and `accuracy = score/total*100` (0 when total is 0), and the game is
cleared from the session. -/
def results_post (sessionGame : Option Game) (name_form : Option String) :
    ResultsOut :=
  match sessionGame with
  | none =>
    { saves := [], flash := some ("No game results to display", "warning"),
      game := none, redirect := some .toIndex }
  | some game =>
    if game.questions = [] then
      { saves := [], flash := some ("No game results to display", "warning"),
        game := some game, redirect := some .toIndex }
    else
      let name := pyStrip (name_form.getD "")
      if name = "" then
        { saves := [], flash := some ("Please enter your name", "warning"),
          game := some game, redirect := none }
      else
        let score := pyIntOfRat game.score
        let total := game.questions.length
        let accuracy : ℚ :=
          if 0 < total then (score : ℚ) / (total : ℚ) * 100 else 0
        { saves := [{ name := name, score := score, total := total,
                      accuracy := accuracy,
                      difficulty := difficultyLabel game.params }],
          flash := some ("Score saved to leaderboard!", "success"),
          game := none, redirect := some .toLeaderboard }

/-- The effective `limit` passed to `get_leaderboard` by the `/leaderboard`
route: `request.args.get('limit', '50')`, `int(...)`, and values outside
[1, 100] (or unparseable ones) replaced by 50. -/
def leaderboard_limit (raw : Option String) : Int :=
  match pyInt? (raw.getD "50") with
  | none => 50
  | some n => if n < 1 ∨ n > 100 then 50 else n

/-- Modelled from the spec: the spec's description of the leaderboard limit
as "clamped to the range [1,100]", i.e. out-of-range values snapped to the
nearest bound. Stated from the spec's words for comparison with
`leaderboard_limit`. -/
def limit_clamp_spec (n : Int) : Int :=
  max 1 (min 100 n)

/-- Concrete tier counts for the spec's worked scenario:
easy 3, medium 0, hard 2. -/
def scenarioCounts : String → Nat := fun d =>
  if d = "easy" then 3 else if d = "hard" then 2 else 0

/-- A concrete easy raw question. -/
def scenarioQ (n : Nat) : RawQuestion :=
  { category := "Geography", difficulty := "easy", qtype := "multiple",
    question := "Question " ++ toString n, correct_answer := "A",
    incorrect_answers := ["B", "C", "D"] }

/-- Scenario tier outcomes: the easy tier succeeds with three questions, the
hard tier fails with a timeout. -/
def scenarioOutcome : String → TierOutcome := fun d =>
  if d = "easy" then
    .result true (.payload
      { response_code := some 0,
        results := [scenarioQ 1, scenarioQ 2, scenarioQ 3] })
  else .result false (.failure "Request timeout")

/-- A concrete processed two-answer question with correct index 0. -/
def scenarioPQ (n : Nat) : ProcessedQuestion :=
  { category := "General Knowledge", difficulty := "easy", qtype := "boolean",
    question := "Q" ++ toString n, answers := ["True", "False"],
    correct_index := 0 }

/-- A fresh two-question game session. -/
def scenarioStart : Game :=
  { questions := [scenarioPQ 0, scenarioPQ 1], index := 0, score := 0,
    started_at := "",
    params := { difficulty := none, easy := 0, medium := 0, hard := 0 },
    question_times := [] }

/-- The same session after a fast correct answer and a wrong answer:
score 1.2 with both questions consumed. -/
def scenarioDone : Game :=
  { questions := [scenarioPQ 0, scenarioPQ 1], index := 2, score := 6/5,
    started_at := "",
    params := { difficulty := none, easy := 0, medium := 0, hard := 0 },
    question_times := [3, 10] }

end Trivia

namespace Trivia

/-- C8: `validate_amount` returns any integer in [1, 50] unchanged, and fails
with a validation error both on non-numeric input and on integers outside
the range; it never clamps or substitutes a different value. -/
theorem validate_amount_spec (s : String) :
    (∀ n : Int, pyInt? s = some n → 1 ≤ n → n ≤ 50 →
      validate_amount s = .ok n) ∧
    (∀ n : Int, pyInt? s = some n → (n < 1 ∨ 50 < n) →
      validate_amount s = .error "Amount must be between 1 and 50") ∧
    (pyInt? s = none →
      validate_amount s = .error "Amount must be a valid integer") := by
  refine ⟨?_, ?_, ?_⟩
  · intro n hn h1 h50
    simp only [validate_amount, hn]
    rw [if_neg (by omega)]
  · intro n hn h
    simp only [validate_amount, hn]
    rw [if_pos (by omega)]
  · intro h
    simp only [validate_amount, h]

/-- Witness for C8 at the inputs "10", "51" and "abc". -/
theorem validate_amount_spec_witness :
    validate_amount "10" = .ok 10 ∧
    validate_amount "51" = .error "Amount must be between 1 and 50" ∧
    validate_amount "abc" = .error "Amount must be a valid integer" :=
  ⟨(validate_amount_spec "10").1 10 (by decide) (by decide) (by decide),
   (validate_amount_spec "51").2.1 51 (by decide) (Or.inr (by decide)),
   (validate_amount_spec "abc").2.2 (by decide)⟩

/-- C4: for every permutation the shuffle may produce of the correct answer
together with the incorrect ones, `shuffle_answers` returns an index at
which the answers hold the correct answer, and the answers are a
permutation (equal multiset) of `{correct} + incorrect`, of length
`1 + |incorrect|`. -/
theorem shuffle_answers_spec (correct_answer : String)
    (incorrect_answers : List String) (shuffled : List String)
    (hperm : shuffled.Perm (correct_answer :: incorrect_answers))
    (_hdistinct : correct_answer ∉ incorrect_answers) :
    (shuffle_answers shuffled correct_answer).1[
      (shuffle_answers shuffled correct_answer).2]? = some correct_answer ∧
    ((shuffle_answers shuffled correct_answer).1 : Multiset String) =
      correct_answer ::ₘ (incorrect_answers : Multiset String) ∧
    (shuffle_answers shuffled correct_answer).1.length =
      1 + incorrect_answers.length := by
  have hmem : correct_answer ∈ shuffled :=
    hperm.mem_iff.mpr (List.mem_cons_self _ _)
  refine ⟨List.getElem?_indexOf hmem, ?_, ?_⟩
  · show (shuffled : Multiset String) = _
    rw [Multiset.cons_coe, Multiset.coe_eq_coe]
    exact hperm
  · show shuffled.length = _
    rw [hperm.length_eq]
    simp [Nat.add_comm]

/-- Witness for C4 at a concrete three-answer shuffle. -/
theorem shuffle_answers_spec_witness :
    (shuffle_answers ["London", "Paris", "Berlin"] "Paris").1[
      (shuffle_answers ["London", "Paris", "Berlin"] "Paris").2]? =
      some "Paris" ∧
    ((shuffle_answers ["London", "Paris", "Berlin"] "Paris").1 :
      Multiset String) =
      "Paris" ::ₘ ((["London", "Berlin"] : List String) : Multiset String) ∧
    (shuffle_answers ["London", "Paris", "Berlin"] "Paris").1.length =
      1 + (["London", "Berlin"] : List String).length :=
  shuffle_answers_spec "Paris" ["London", "Berlin"]
    ["London", "Paris", "Berlin"] (by decide) (by decide)

/-- C7 counterexample: the route does not clamp an out-of-range numeric
`limit` to the nearest bound; `limit=200` produces the default 50, not the
clamped 100. -/
theorem leaderboard_limit_counterexample :
    leaderboard_limit (some "200") = 50 ∧ limit_clamp_spec 200 = 100 ∧
    leaderboard_limit (some "200") ≠ limit_clamp_spec 200 := by
  refine ⟨by decide, by decide, by decide⟩

/-- C7 (amended): the effective leaderboard limit always lies in [1, 100];
an in-range numeric parameter passes through unchanged, while an absent,
non-numeric, or out-of-range parameter falls back to the default 50 (it is
not snapped to the nearer bound). -/
theorem leaderboard_limit_spec (raw : Option String) :
    1 ≤ leaderboard_limit raw ∧ leaderboard_limit raw ≤ 100 ∧
    leaderboard_limit none = 50 ∧
    (∀ s, raw = some s → pyInt? s = none → leaderboard_limit raw = 50) ∧
    (∀ s n, raw = some s → pyInt? s = some n → 1 ≤ n → n ≤ 100 →
      leaderboard_limit raw = n) ∧
    (∀ s n, raw = some s → pyInt? s = some n → (n < 1 ∨ 100 < n) →
      leaderboard_limit raw = 50) := by
  refine ⟨?_, ?_, by decide, ?_, ?_, ?_⟩
  · unfold leaderboard_limit
    rcases h : pyInt? (raw.getD "50") with _ | n
    · decide
    · dsimp only
      split
      · omega
      · omega
  · unfold leaderboard_limit
    rcases h : pyInt? (raw.getD "50") with _ | n
    · decide
    · dsimp only
      split
      · omega
      · next hcond => push_neg at hcond; omega
  · intro s hs hnone
    subst hs
    simp only [leaderboard_limit, Option.getD_some, hnone]
  · intro s n hs hn h1 h100
    subst hs
    simp only [leaderboard_limit, Option.getD_some, hn]
    rw [if_neg (by omega)]
  · intro s n hs hn h
    subst hs
    simp only [leaderboard_limit, Option.getD_some, hn]
    rw [if_pos (by omega)]

/-- Storing an envelope that reports success preserves the cache invariant. -/
theorem cache_success_inv_set (cache : Cache) (p : ApiParams) (env : Envelope)
    (now : Int) (henv : env.response_code = some 0)
    (h : cache_success_inv cache) :
    cache_success_inv (set_cached_response cache p env now) := by
  intro q e ts hq
  unfold set_cached_response at hq
  by_cases hqp : q = p
  · rw [if_pos hqp] at hq
    simp only [Option.some.injEq, Prod.mk.injEq] at hq
    obtain ⟨he, -⟩ := hq
    exact he ▸ henv
  · rw [if_neg hqp] at hq
    exact h q e ts hq

/-- C2: the fetch client makes at most `API_RETRIES + 1 = 2` attempts; a
second attempt happens only after a timeout or connection error on the
first (with exactly one backoff sleep in between); a 429 response or any
other non-200 HTTP status ends the call immediately after one attempt with
a structured failure; and every failing call returns an error record rather
than raising. -/
theorem fetch_retry_policy (p : ApiParams) (use_cache : Bool) (cache : Cache)
    (now : Int) (outcomes : Nat → AttemptOutcome) (elapsedMs : Nat)
    (r : FetchOut)
    (hr : r = fetch_trivia_questions p use_cache cache now outcomes elapsedMs) :
    r.attemptsUsed ≤ API_RETRIES + 1 ∧
    r.sleeps ≤ API_RETRIES ∧
    (r.attemptsUsed = 2 →
      (outcomes 0 = .timeout ∨ outcomes 0 = .connectionError) ∧
      r.sleeps = 1) ∧
    (r.cacheHit = false →
      (∀ env, outcomes 0 = .httpResponse 429 env →
        r.ok = false ∧ r.attemptsUsed = 1 ∧
        r.data = .failure "Rate limited by API") ∧
      (∀ status env, outcomes 0 = .httpResponse status env → status ≠ 200 →
        r.ok = false ∧ r.attemptsUsed = 1)) ∧
    (r.ok = false → ∃ msg, r.data = .failure msg) := by
  subst hr
  rcases hc : (if use_cache then get_cached_response cache p now else none)
    with _ | env0
  case some =>
    simp [fetch_trivia_questions, hc]
  case none =>
    cases h0 : outcomes 0
    case httpResponse status env =>
      by_cases hs : status = 200
      · subst hs
        simp [fetch_trivia_questions, hc, API_RETRIES, runAttempts, h0, failOut]
      · by_cases h429 : status = 429
        · subst h429
          simp [fetch_trivia_questions, hc, API_RETRIES, runAttempts, h0,
                failOut]
        · simp [fetch_trivia_questions, hc, API_RETRIES, runAttempts, h0,
                failOut, hs, h429]
    case timeout =>
      cases h1 : outcomes 1
      case httpResponse status env =>
        by_cases hs : status = 200
        · subst hs
          simp [fetch_trivia_questions, hc, API_RETRIES, runAttempts, h0, h1,
                failOut]
        · by_cases h429 : status = 429
          · subst h429
            simp [fetch_trivia_questions, hc, API_RETRIES, runAttempts, h0,
                  h1, failOut]
          · simp [fetch_trivia_questions, hc, API_RETRIES, runAttempts, h0,
                  h1, failOut, hs, h429]
      case timeout =>
        simp [fetch_trivia_questions, hc, API_RETRIES, runAttempts, h0, h1,
              failOut]
      case connectionError =>
        simp [fetch_trivia_questions, hc, API_RETRIES, runAttempts, h0, h1,
              failOut]
      case requestException msg =>
        simp [fetch_trivia_questions, hc, API_RETRIES, runAttempts, h0, h1,
              failOut]
    case connectionError =>
      cases h1 : outcomes 1
      case httpResponse status env =>
        by_cases hs : status = 200
        · subst hs
          simp [fetch_trivia_questions, hc, API_RETRIES, runAttempts, h0, h1,
                failOut]
        · by_cases h429 : status = 429
          · subst h429
            simp [fetch_trivia_questions, hc, API_RETRIES, runAttempts, h0,
                  h1, failOut]
          · simp [fetch_trivia_questions, hc, API_RETRIES, runAttempts, h0,
                  h1, failOut, hs, h429]
      case timeout =>
        simp [fetch_trivia_questions, hc, API_RETRIES, runAttempts, h0, h1,
              failOut]
      case connectionError =>
        simp [fetch_trivia_questions, hc, API_RETRIES, runAttempts, h0, h1,
              failOut]
      case requestException msg =>
        simp [fetch_trivia_questions, hc, API_RETRIES, runAttempts, h0, h1,
              failOut]
    case requestException msg =>
      simp [fetch_trivia_questions, hc, API_RETRIES, runAttempts, h0, failOut]

/-- Witness for C2: a first-attempt timeout at a concrete call. -/
theorem fetch_retry_policy_witness :
    (fetch_trivia_questions default false (fun _ => none) 0
        (fun _ => AttemptOutcome.timeout) 7).attemptsUsed ≤ API_RETRIES + 1 ∧
    ((fetch_trivia_questions default false (fun _ => none) 0
        (fun _ => AttemptOutcome.timeout) 7).ok = false →
      ∃ msg, (fetch_trivia_questions default false (fun _ => none) 0
        (fun _ => AttemptOutcome.timeout) 7).data = .failure msg) :=
  ⟨(fetch_retry_policy default false (fun _ => none) 0
      (fun _ => AttemptOutcome.timeout) 7 _ rfl).1,
   (fetch_retry_policy default false (fun _ => none) 0
      (fun _ => AttemptOutcome.timeout) 7 _ rfl).2.2.2.2⟩

/-- Writes of `failOut` are empty; its data is never a payload. -/
theorem failOut_char (le : Option String) (a s : Nat)
    (outcomes : Nat → AttemptOutcome) (p : ApiParams) :
    (∀ w ∈ (failOut le a s).writes, (w.2).response_code = some 0) ∧
    ((failOut le a s).ok = false → (failOut le a s).writes = []) ∧
    (∀ env, (failOut le a s).data = .payload env →
      (failOut le a s).ok = true ∧
      (∃ j, outcomes j = .httpResponse 200 env) ∧
      (failOut le a s).writes =
        (if env.response_code = some 0 then [(p, env)] else [])) := by
  refine ⟨by simp [failOut], fun _ => rfl, ?_⟩
  intro env h
  simp [failOut] at h

/-- The 200-branch record of the retry loop, characterized. -/
theorem successOut_char (env : Envelope) (i : Nat)
    (outcomes : Nat → AttemptOutcome) (p : ApiParams)
    (h0 : outcomes i = .httpResponse 200 env) :
    (∀ w ∈ (if env.response_code = some 0 then [(p, env)] else
      ([] : List (ApiParams × Envelope))), (w.2).response_code = some 0) ∧
    (∀ env1 : Envelope, RespData.payload env = .payload env1 →
      (∃ j, outcomes j = .httpResponse 200 env1) ∧
      (if env.response_code = some 0 then [(p, env)] else
        ([] : List (ApiParams × Envelope))) =
        (if env1.response_code = some 0 then [(p, env1)] else [])) := by
  constructor
  · intro w hw
    by_cases hrc : env.response_code = some 0
    · rw [if_pos hrc] at hw
      simp only [List.mem_singleton] at hw
      subst hw
      exact hrc
    · rw [if_neg hrc] at hw
      simp at hw
  · intro env1 henv1
    simp only [RespData.payload.injEq] at henv1
    subst henv1
    exact ⟨⟨i, h0⟩, rfl⟩

/-- Characterization of the retry loop's writes: every write carries a
success envelope, failures write nothing, and a payload result comes from a
200 response and writes exactly when its envelope reports success. -/
theorem runAttempts_writes_char (outcomes : Nat → AttemptOutcome)
    (p : ApiParams) :
    ∀ remaining i sleeps,
      (∀ w ∈ (runAttempts outcomes p i remaining sleeps).writes,
        (w.2).response_code = some 0) ∧
      ((runAttempts outcomes p i remaining sleeps).ok = false →
        (runAttempts outcomes p i remaining sleeps).writes = []) ∧
      (∀ env, (runAttempts outcomes p i remaining sleeps).data = .payload env →
        (runAttempts outcomes p i remaining sleeps).ok = true ∧
        (∃ j, outcomes j = .httpResponse 200 env) ∧
        (runAttempts outcomes p i remaining sleeps).writes =
          (if env.response_code = some 0 then [(p, env)] else [])) := by
  intro remaining
  induction remaining with
  | zero =>
    intro i sleeps
    cases h0 : outcomes i
    case httpResponse status env =>
      by_cases hs : status = 200
      · subst hs
        have e : runAttempts outcomes p i 0 sleeps =
            { ok := true, data := .payload env,
              writes := if env.response_code = some 0 then [(p, env)] else [],
              attemptsUsed := i + 1, sleeps := sleeps } := by
          simp [runAttempts, h0]
        rw [e]
        obtain ⟨hall, hpay⟩ := successOut_char env i outcomes p h0
        refine ⟨hall, ?_, ?_⟩
        · intro hok
          simp at hok
        · intro env1 henv1
          obtain ⟨hex, hw⟩ := hpay env1 henv1
          exact ⟨rfl, hex, hw⟩
      · have e : runAttempts outcomes p i 0 sleeps =
            (if status = 429 then failOut (some "Rate limited by API")
              (i + 1) sleeps
             else failOut (some ("HTTP " ++ toString status)) (i + 1)
              sleeps) := by
          simp only [runAttempts, h0, if_neg hs]
        rw [e]
        by_cases h429 : status = 429
        · rw [if_pos h429]
          exact failOut_char _ _ _ outcomes p
        · rw [if_neg h429]
          exact failOut_char _ _ _ outcomes p
    case timeout =>
      have e : runAttempts outcomes p i 0 sleeps =
          failOut (some "Request timeout") (i + 1) sleeps := by
        simp only [runAttempts, h0]
      rw [e]
      exact failOut_char _ _ _ outcomes p
    case connectionError =>
      have e : runAttempts outcomes p i 0 sleeps =
          failOut (some "Connection error") (i + 1) sleeps := by
        simp only [runAttempts, h0]
      rw [e]
      exact failOut_char _ _ _ outcomes p
    case requestException msg =>
      have e : runAttempts outcomes p i 0 sleeps =
          failOut (some msg) (i + 1) sleeps := by
        simp only [runAttempts, h0]
      rw [e]
      exact failOut_char _ _ _ outcomes p
  | succ r ih =>
    intro i sleeps
    cases h0 : outcomes i
    case httpResponse status env =>
      by_cases hs : status = 200
      · subst hs
        have e : runAttempts outcomes p i (r + 1) sleeps =
            { ok := true, data := .payload env,
              writes := if env.response_code = some 0 then [(p, env)] else [],
              attemptsUsed := i + 1, sleeps := sleeps } := by
          simp [runAttempts, h0]
        rw [e]
        obtain ⟨hall, hpay⟩ := successOut_char env i outcomes p h0
        refine ⟨hall, ?_, ?_⟩
        · intro hok
          simp at hok
        · intro env1 henv1
          obtain ⟨hex, hw⟩ := hpay env1 henv1
          exact ⟨rfl, hex, hw⟩
      · have e : runAttempts outcomes p i (r + 1) sleeps =
            (if status = 429 then failOut (some "Rate limited by API")
              (i + 1) sleeps
             else failOut (some ("HTTP " ++ toString status)) (i + 1)
              sleeps) := by
          simp only [runAttempts, h0, if_neg hs]
        rw [e]
        by_cases h429 : status = 429
        · rw [if_pos h429]
          exact failOut_char _ _ _ outcomes p
        · rw [if_neg h429]
          exact failOut_char _ _ _ outcomes p
    case timeout =>
      have e : runAttempts outcomes p i (r + 1) sleeps =
          runAttempts outcomes p (i + 1) r (sleeps + 1) := by
        simp only [runAttempts, h0]
      rw [e]
      exact ih (i + 1) (sleeps + 1)
    case connectionError =>
      have e : runAttempts outcomes p i (r + 1) sleeps =
          runAttempts outcomes p (i + 1) r (sleeps + 1) := by
        simp only [runAttempts, h0]
      rw [e]
      exact ih (i + 1) (sleeps + 1)
    case requestException msg =>
      have e : runAttempts outcomes p i (r + 1) sleeps =
          failOut (some msg) (i + 1) sleeps := by
        simp only [runAttempts, h0]
      rw [e]
      exact failOut_char _ _ _ outcomes p

/-- The cache invariant is preserved by applying success-only writes. -/
theorem cache_success_inv_apply_writes
    (writes : List (ApiParams × Envelope)) (cache : Cache) (now : Int)
    (hall : ∀ w ∈ writes, (w.2).response_code = some 0)
    (h : cache_success_inv cache) :
    cache_success_inv (apply_writes writes cache now) := by
  induction writes generalizing cache with
  | nil => exact h
  | cons w ws ih =>
    exact ih (set_cached_response cache w.1 w.2 now)
      (fun w1 hw1 => hall w1 (List.mem_cons_of_mem _ hw1))
      (cache_success_inv_set cache w.1 w.2 now
        (hall w (List.mem_cons_self _ _)) h)

/-- C3: the cache is written exactly by fetches whose terminal attempt was an
HTTP 200 whose envelope has `response_code = 0`; envelopes with non-zero
response codes are never stored even though the call succeeded, failures and
cache hits write nothing, and the all-entries-report-success invariant is
preserved by every fetch. -/
theorem fetch_cache_success_only (p : ApiParams) (use_cache : Bool)
    (cache : Cache) (now : Int) (outcomes : Nat → AttemptOutcome)
    (elapsedMs : Nat) (r : FetchOut)
    (hr : r = fetch_trivia_questions p use_cache cache now outcomes elapsedMs) :
    (∀ w ∈ r.writes, (w.2).response_code = some 0) ∧
    (cache_success_inv cache → cache_success_inv r.cache) ∧
    (r.cacheHit = false → ∀ env, r.data = .payload env →
      r.ok = true ∧ (∃ i, outcomes i = .httpResponse 200 env) ∧
      (env.response_code = some 0 →
        r.writes = [(p, env)] ∧
        r.cache = set_cached_response cache p env now) ∧
      (env.response_code ≠ some 0 → r.writes = [] ∧ r.cache = cache)) ∧
    (r.ok = false → r.writes = [] ∧ r.cache = cache) ∧
    (r.cacheHit = true → r.writes = [] ∧ r.cache = cache) := by
  subst hr
  rcases hc : (if use_cache then get_cached_response cache p now else none)
    with _ | env0
  case some =>
    simp [fetch_trivia_questions, hc]
  case none =>
    obtain ⟨hall, hfail, hpay⟩ :=
      runAttempts_writes_char outcomes p API_RETRIES 0 0
    have e : fetch_trivia_questions p use_cache cache now outcomes elapsedMs =
        { ok := (runAttempts outcomes p 0 API_RETRIES 0).ok,
          data := (runAttempts outcomes p 0 API_RETRIES 0).data,
          latency := elapsedMs,
          cache := apply_writes (runAttempts outcomes p 0 API_RETRIES 0).writes
            cache now,
          writes := (runAttempts outcomes p 0 API_RETRIES 0).writes,
          attemptsUsed := (runAttempts outcomes p 0 API_RETRIES 0).attemptsUsed,
          sleeps := (runAttempts outcomes p 0 API_RETRIES 0).sleeps,
          cacheHit := false } := by
      simp only [fetch_trivia_questions, hc]
    rw [e]
    refine ⟨hall, ?_, ?_, ?_, ?_⟩
    · intro hinv
      exact cache_success_inv_apply_writes _ cache now hall hinv
    · intro _ env henv
      obtain ⟨hok, hex, hw⟩ := hpay env henv
      refine ⟨hok, hex, ?_, ?_⟩
      · intro hrc
        rw [hw, if_pos hrc]
        exact ⟨rfl, rfl⟩
      · intro hrc
        rw [hw, if_neg hrc]
        exact ⟨rfl, rfl⟩
    · intro hok
      rw [hfail hok]
      exact ⟨rfl, rfl⟩
    · intro hhit
      simp at hhit

/-- Witness for C3: a 200 response whose envelope has `response_code = 1`
leaves the cache untouched. -/
theorem fetch_cache_success_only_witness :
    (fetch_trivia_questions default false (fun _ => none) 0
        (fun _ => AttemptOutcome.httpResponse 200 ⟨some 1, []⟩) 7).writes =
      [] :=
  ((((fetch_cache_success_only default false (fun _ => none) 0
      (fun _ => AttemptOutcome.httpResponse 200 ⟨some 1, []⟩) 7 _ rfl).2.2.1)
    rfl ⟨some 1, []⟩ rfl).2.2.2 (by decide)).1

/-- C9: an HTTP 200 response makes the fetch client return success together
with the parsed envelope, whatever that envelope's `response_code` is;
detecting envelope-level failure codes is left to the caller. -/
theorem fetch_http200_spec (p : ApiParams) (cache : Cache) (now : Int)
    (outcomes : Nat → AttemptOutcome) (elapsedMs : Nat) (env : Envelope)
    (h200 : outcomes 0 = .httpResponse 200 env) :
    (fetch_trivia_questions p false cache now outcomes elapsedMs).ok = true ∧
    (fetch_trivia_questions p false cache now outcomes elapsedMs).data =
      .payload env := by
  simp [fetch_trivia_questions, API_RETRIES, runAttempts, h200]

/-- Witness for C9: an envelope with `response_code = 1` (not enough results)
still comes back with `ok = true`. -/
theorem fetch_http200_spec_witness :
    (fetch_trivia_questions default false (fun _ => none) 0
        (fun _ => AttemptOutcome.httpResponse 200 ⟨some 1, []⟩) 7).ok = true ∧
    (fetch_trivia_questions default false (fun _ => none) 0
        (fun _ => AttemptOutcome.httpResponse 200 ⟨some 1, []⟩) 7).data =
      .payload ⟨some 1, []⟩ :=
  fetch_http200_spec default (fun _ => none) 0
    (fun _ => AttemptOutcome.httpResponse 200 ⟨some 1, []⟩) 7 ⟨some 1, []⟩ rfl

/-- Witness for C7 (amended) at the inputs "99", "abc" and "0". -/
theorem leaderboard_limit_spec_witness :
    leaderboard_limit (some "99") = 99 ∧
    leaderboard_limit (some "abc") = 50 ∧
    leaderboard_limit (some "0") = 50 :=
  ⟨(leaderboard_limit_spec (some "99")).2.2.2.2.1 "99" 99 rfl (by decide)
      (by decide) (by decide),
   (leaderboard_limit_spec (some "abc")).2.2.2.1 "abc" rfl (by decide),
   (leaderboard_limit_spec (some "0")).2.2.2.2.2 "0" 0 rfl (by decide)
      (Or.inl (by decide))⟩

/-- Characterization of one answer submission against an in-progress game:
the index advances by one, the elapsed time is logged, the score gains
1 (+0.2 when under 5 seconds) exactly on a parsed index equal to the stored
correct index, mismatches surface the correct answer text, unparseable
input is flashed without scoring, and the results redirect happens exactly
when the advanced index reaches the question count. -/
theorem answer_char (g : Game) (qst : Option ℚ) (now : ℚ)
    (ua : Option String) (hidx : g.index < g.questions.length) :
    ∃ g2, (answer (some g) qst now ua).game = some g2 ∧
      g2.index = g.index + 1 ∧
      g2.questions = g.questions ∧
      g2.question_times = g.question_times ++ [now - qst.getD now] ∧
      (∀ i : Int, ua.bind pyInt? = some i →
        i = ((g.questions.getD g.index default).correct_index : Int) →
        g2.score = (if now - qst.getD now < 5 then g.score + 1 + 1/5
                    else g.score + 1) ∧
        (answer (some g) qst now ua).flash = some ("Correct!", "success")) ∧
      (∀ i : Int, ua.bind pyInt? = some i →
        i ≠ ((g.questions.getD g.index default).correct_index : Int) →
        g2.score = g.score ∧
        (answer (some g) qst now ua).flash =
          some ("Wrong! The correct answer was: " ++
            (g.questions.getD g.index default).answers.getD
              (g.questions.getD g.index default).correct_index "",
            "danger")) ∧
      (ua.bind pyInt? = none →
        g2.score = g.score ∧
        (answer (some g) qst now ua).flash =
          some ("Invalid answer", "danger")) ∧
      ((answer (some g) qst now ua).redirect = .toResults ↔
        g.index + 1 = g.questions.length) := by
  have hq : ¬ g.questions = [] := by
    intro h
    rw [h] at hidx
    simp at hidx
  have hle : ¬ g.questions.length ≤ g.index := not_le.mpr hidx
  have hred : ∀ z : Redirect,
      (if g.questions.length ≤ g.index + 1 then Redirect.toResults
       else Redirect.toQuestion) = Redirect.toResults ↔
      g.index + 1 = g.questions.length := by
    intro _
    by_cases hend : g.questions.length ≤ g.index + 1
    · rw [if_pos hend]
      simp only [true_iff]
      omega
    · rw [if_neg hend]
      constructor
      · intro hcontra
        exact absurd hcontra (by simp)
      · intro heq
        omega
  rcases hparse : ua.bind pyInt? with _ | i
  · have e : answer (some g) qst now ua =
        { game :=
            some
              { g with
                index := g.index + 1,
                question_times := g.question_times ++ [now - qst.getD now] },
          question_start_time := none,
          flash := some ("Invalid answer", "danger"),
          redirect :=
            if g.questions.length ≤ g.index + 1 then Redirect.toResults
            else Redirect.toQuestion } := by
      simp only [answer, if_neg hq, if_neg hle, hparse]
    rw [e]
    refine ⟨_, rfl, rfl, rfl, rfl, ?_, ?_, ?_, ?_⟩
    · intro i hi
      simp at hi
    · intro i hi
      simp at hi
    · intro _
      exact ⟨rfl, rfl⟩
    · exact hred .toResults
  · by_cases hcorr :
      i = ((g.questions.getD g.index default).correct_index : Int)
    · have e : answer (some g) qst now ua =
          { game :=
              some
                { g with
                  index := g.index + 1,
                  score :=
                    if now - qst.getD now < 5 then g.score + 1 + 1/5
                    else g.score + 1,
                  question_times :=
                    g.question_times ++ [now - qst.getD now] },
            question_start_time := none,
            flash := some ("Correct!", "success"),
            redirect :=
              if g.questions.length ≤ g.index + 1 then Redirect.toResults
              else Redirect.toQuestion } := by
        simp only [answer, if_neg hq, if_neg hle, hparse, if_pos hcorr]
      rw [e]
      refine ⟨_, rfl, rfl, rfl, rfl, ?_, ?_, ?_, ?_⟩
      · intro j hj _
        exact ⟨rfl, rfl⟩
      · intro j hj hne
        obtain rfl : i = j := Option.some.inj hj
        exact absurd hcorr hne
      · intro hnone
        simp at hnone
      · exact hred .toResults
    · have e : answer (some g) qst now ua =
          { game :=
              some
                { g with
                  index := g.index + 1,
                  question_times :=
                    g.question_times ++ [now - qst.getD now] },
            question_start_time := none,
            flash :=
              some ("Wrong! The correct answer was: " ++
                (g.questions.getD g.index default).answers.getD
                  (g.questions.getD g.index default).correct_index "",
               "danger"),
            redirect :=
              if g.questions.length ≤ g.index + 1 then Redirect.toResults
              else Redirect.toQuestion } := by
        simp only [answer, if_neg hq, if_neg hle, hparse, if_neg hcorr]
      rw [e]
      refine ⟨_, rfl, rfl, rfl, rfl, ?_, ?_, ?_, ?_⟩
      · intro j hj hcorr2
        obtain rfl : i = j := Option.some.inj hj
        exact absurd hcorr2 hcorr
      · intro j hj _
        exact ⟨rfl, rfl⟩
      · intro hnone
        simp at hnone
      · exact hred .toResults

/-- C5: one answer submission against an in-progress game advances the index
by exactly one; a submitted answer parsing to the stored correct index adds
1 to the score plus 0.2 when the elapsed time is under 5 seconds; a
mismatching index or unparseable input leaves the score unchanged without
an exception (the correct answer text is surfaced on a mismatch, an
invalid-answer flash on unparseable input); and the game redirects to the
results (Complete) state exactly when the advanced index reaches the number
of questions. -/
theorem answer_advance_spec (g : Game) (qst : Option ℚ) (now : ℚ)
    (ua : Option String) (hidx : g.index < g.questions.length) :
    ∃ g2, (answer (some g) qst now ua).game = some g2 ∧
      g2.index = g.index + 1 ∧
      g2.questions = g.questions ∧
      g2.question_times = g.question_times ++ [now - qst.getD now] ∧
      (∀ i : Int, ua.bind pyInt? = some i →
        i = ((g.questions.getD g.index default).correct_index : Int) →
        g2.score = (if now - qst.getD now < 5 then g.score + 1 + 1/5
                    else g.score + 1) ∧
        (answer (some g) qst now ua).flash = some ("Correct!", "success")) ∧
      (∀ i : Int, ua.bind pyInt? = some i →
        i ≠ ((g.questions.getD g.index default).correct_index : Int) →
        g2.score = g.score ∧
        (answer (some g) qst now ua).flash =
          some ("Wrong! The correct answer was: " ++
            (g.questions.getD g.index default).answers.getD
              (g.questions.getD g.index default).correct_index "",
            "danger")) ∧
      (ua.bind pyInt? = none →
        g2.score = g.score ∧
        (answer (some g) qst now ua).flash =
          some ("Invalid answer", "danger")) ∧
      ((answer (some g) qst now ua).redirect = .toResults ↔
        g.index + 1 = g.questions.length) :=
  answer_char g qst now ua hidx

/-- Witness for C5: the two-question scenario; a correct answer in 3 seconds
makes the score 1.2, a wrong second answer keeps it and completes the game. -/
theorem answer_advance_spec_witness :
    (∃ g2, (answer (some scenarioStart) (some 0) 3 (some "0")).game =
        some g2 ∧
      g2.index = scenarioStart.index + 1 ∧
      g2.questions = scenarioStart.questions ∧
      g2.question_times = scenarioStart.question_times ++
        [3 - (some (0 : ℚ)).getD 3] ∧
      (∀ i : Int, (some "0").bind pyInt? = some i →
        i = ((scenarioStart.questions.getD scenarioStart.index
            default).correct_index : Int) →
        g2.score = (if (3 : ℚ) - (some (0 : ℚ)).getD 3 < 5 then
            scenarioStart.score + 1 + 1/5 else scenarioStart.score + 1) ∧
        (answer (some scenarioStart) (some 0) 3 (some "0")).flash =
          some ("Correct!", "success")) ∧
      (∀ i : Int, (some "0").bind pyInt? = some i →
        i ≠ ((scenarioStart.questions.getD scenarioStart.index
            default).correct_index : Int) →
        g2.score = scenarioStart.score ∧
        (answer (some scenarioStart) (some 0) 3 (some "0")).flash =
          some ("Wrong! The correct answer was: " ++
            (scenarioStart.questions.getD scenarioStart.index
              default).answers.getD
              (scenarioStart.questions.getD scenarioStart.index
                default).correct_index "",
            "danger")) ∧
      ((some "0").bind pyInt? = none →
        g2.score = scenarioStart.score ∧
        (answer (some scenarioStart) (some 0) 3 (some "0")).flash =
          some ("Invalid answer", "danger")) ∧
      ((answer (some scenarioStart) (some 0) 3 (some "0")).redirect =
          .toResults ↔
        scenarioStart.index + 1 = scenarioStart.questions.length)) ∧
    (answer (some scenarioStart) (some 0) 3 (some "0")).game =
      some
        { scenarioStart with
          index := 1, score := 6/5, question_times := [3] } ∧
    (answer
      (some
        { scenarioStart with
          index := 1, score := 6/5, question_times := [3] })
      (some 10) 20 (some "1")).game = some scenarioDone ∧
    (answer
      (some
        { scenarioStart with
          index := 1, score := 6/5, question_times := [3] })
      (some 10) 20 (some "1")).redirect = .toResults :=
  ⟨answer_advance_spec scenarioStart (some 0) 3 (some "0") (by decide),
   by
    have hparse : ((some "0" : Option String).bind pyInt?) = some (0 : Int) :=
      by decide
    have hq : ¬ scenarioStart.questions = [] := by decide
    have hle : ¬ scenarioStart.questions.length ≤ scenarioStart.index := by
      decide
    simp only [answer, if_neg hq, if_neg hle, hparse]
    rw [if_pos (by decide :
      (0 : Int) = ((scenarioStart.questions.getD scenarioStart.index
        default).correct_index : Int))]
    rw [if_pos (show (3 : ℚ) - (some (0 : ℚ)).getD 3 < 5 by
      rw [Option.getD_some]; norm_num)]
    simp only [Option.some.injEq, Game.mk.injEq, scenarioStart]
    norm_num,
   by
    have hparse : ((some "1" : Option String).bind pyInt?) = some (1 : Int) :=
      by decide
    have hq : ¬ ({ scenarioStart with
        index := 1, score := (6/5 : ℚ), question_times := [3] } :
        Game).questions = [] := by decide
    have hle : ¬ ({ scenarioStart with
        index := 1, score := (6/5 : ℚ), question_times := [3] } :
        Game).questions.length ≤ 1 := by decide
    simp only [answer, if_neg hq, if_neg hle, hparse]
    rw [if_neg (by decide : ¬ (1 : Int) =
      ((({ scenarioStart with
          index := 1, score := (6/5 : ℚ), question_times := [3] } :
          Game).questions.getD 1 default).correct_index : Int))]
    simp only [Option.some.injEq, Game.mk.injEq, scenarioStart, scenarioDone]
    norm_num,
   by decide⟩

/-- C10: when the per-question start marker is missing from the session, the
elapsed time is computed as zero, so a correct answer always receives the
0.2 fast-answer bonus and a zero entry is appended to the time log. -/
theorem answer_missing_start_spec (g : Game) (now : ℚ) (ua : Option String)
    (hidx : g.index < g.questions.length)
    (hcorrect : ua.bind pyInt? =
      some ((g.questions.getD g.index default).correct_index : Int)) :
    ∃ g2, (answer (some g) none now ua).game = some g2 ∧
      g2.score = g.score + 1 + 1/5 ∧
      g2.question_times = g.question_times ++ [0] := by
  obtain ⟨g2, hg, _h1, _h2, ht, hcorr, _h3, _h4, _h5⟩ :=
    answer_char g none now ua hidx
  refine ⟨g2, hg, ?_, ?_⟩
  · have h := (hcorr _ hcorrect rfl).1
    rw [h, Option.getD_none, sub_self,
        if_pos (show (0 : ℚ) < 5 by norm_num)]
  · rw [ht, Option.getD_none, sub_self]

/-- Witness for C10: answering correctly with no recorded start time. -/
theorem answer_missing_start_spec_witness :
    ∃ g2, (answer (some scenarioStart) none 3 (some "0")).game = some g2 ∧
      g2.score = scenarioStart.score + 1 + 1/5 ∧
      g2.question_times = scenarioStart.question_times ++ [0] :=
  answer_missing_start_spec scenarioStart 3 (some "0") (by decide) (by decide)

/-- C6 counterexample: with a fractional session score of 1.2 over 2
questions, the persisted accuracy is computed from the truncated integer
score (1/2·100 = 50), not from the session score itself (1.2/2·100 = 60). -/
theorem results_accuracy_counterexample :
    (results_post (some scenarioDone) (some "Alice")).saves =
      [{ name := "Alice", score := 1, total := 2, accuracy := 50,
         difficulty := "any" }] ∧
    scenarioDone.score / (scenarioDone.questions.length : ℚ) * 100 = 60 ∧
    (50 : ℚ) ≠ 60 := by
  refine ⟨?_, ?_, by norm_num⟩
  · have hq : ¬ scenarioDone.questions = [] := by decide
    have hname : ¬ pyStrip ((some "Alice" : Option String).getD "") = "" := by
      decide
    have hlen : 0 < scenarioDone.questions.length := by decide
    have hscore : pyIntOfRat scenarioDone.score = 1 := by
      have hnum : (6/5 : ℚ).num = 6 := by norm_num
      have hden : (6/5 : ℚ).den = 5 := by norm_num
      simp only [pyIntOfRat, show scenarioDone.score = 6/5 from rfl, hnum,
                 hden]
      decide
    have hacc : ((pyIntOfRat scenarioDone.score : ℚ) /
        (scenarioDone.questions.length : ℚ) * 100) = 50 := by
      rw [hscore]
      simp only [scenarioDone, List.length_cons, List.length_nil]
      norm_num
    simp only [results_post, if_neg hq, if_neg hname, if_pos hlen]
    rw [hacc, hscore]
    decide
  · simp only [show scenarioDone.score = 6/5 from rfl, scenarioDone,
               List.length_cons, List.length_nil]
    norm_num

/-- C6 (amended): a blank (or whitespace-only) name is rejected with no
persistence call and the session kept; a non-blank name persists exactly one
entry whose accuracy is the truncated integer score divided by the total,
times 100, and the game session is cleared. -/
theorem results_save_spec (g : Game) (name_form : Option String)
    (hq : g.questions ≠ []) :
    (pyStrip (name_form.getD "") = "" →
      (results_post (some g) name_form).saves = [] ∧
      (results_post (some g) name_form).game = some g) ∧
    (pyStrip (name_form.getD "") ≠ "" →
      (results_post (some g) name_form).saves =
        [{ name := pyStrip (name_form.getD ""),
           score := pyIntOfRat g.score,
           total := g.questions.length,
           accuracy := (pyIntOfRat g.score : ℚ) /
             (g.questions.length : ℚ) * 100,
           difficulty := difficultyLabel g.params }] ∧
      (results_post (some g) name_form).game = none) := by
  have hlen : 0 < g.questions.length := List.length_pos.mpr hq
  constructor
  · intro hname
    have e : results_post (some g) name_form =
        { saves := [], flash := some ("Please enter your name", "warning"),
          game := some g, redirect := none } := by
      simp only [results_post, if_neg hq, if_pos hname]
    rw [e]
    exact ⟨rfl, rfl⟩
  · intro hname
    have e : results_post (some g) name_form =
        { saves :=
            [{ name := pyStrip (name_form.getD ""),
               score := pyIntOfRat g.score,
               total := g.questions.length,
               accuracy := (pyIntOfRat g.score : ℚ) /
                 (g.questions.length : ℚ) * 100,
               difficulty := difficultyLabel g.params }],
          flash := some ("Score saved to leaderboard!", "success"),
          game := none, redirect := some .toLeaderboard } := by
      simp only [results_post, if_neg hq, if_neg hname, if_pos hlen]
    rw [e]
    exact ⟨rfl, rfl⟩

/-- Witness for C6 (amended) at the finished scenario game and name "Alice". -/
theorem results_save_spec_witness :
    (results_post (some scenarioDone) (some "Alice")).saves =
      [{ name := pyStrip ((some "Alice").getD ""),
         score := pyIntOfRat scenarioDone.score,
         total := scenarioDone.questions.length,
         accuracy := (pyIntOfRat scenarioDone.score : ℚ) /
           (scenarioDone.questions.length : ℚ) * 100,
         difficulty := difficultyLabel scenarioDone.params }] ∧
    (results_post (some scenarioDone) (some "Alice")).game = none :=
  (results_save_spec scenarioDone (some "Alice") (by decide)).2 (by decide)

/-- A string append with a non-empty left part is non-empty. -/
theorem string_append_left_ne_empty (s t : String) (h : s ≠ "") :
    s ++ t ≠ "" := by
  intro hst
  apply h
  have hd : s.data ++ t.data = [] := by
    have := congrArg String.data hst
    rwa [String.data_append] at this
  have hs : s.data = [] := (List.append_eq_nil.mp hd).1
  obtain ⟨d⟩ := s
  cases hs
  rfl

/-- C1: the orchestrator issues one fetch task per tier with a non-zero
count (no duplicates); it succeeds exactly when the combined question list
is non-empty, returning a permutation of it; partial tier failures keep
`ok = true` but produce a non-empty warning; an empty combination yields
`ok = false` with the joined tier errors, or the generic no-questions
message when no tier reported one. -/
theorem mixed_fetch_spec (counts : String → Nat)
    (category q_type encode : String) (outcome : String → TierOutcome)
    (shuffle : List RawQuestion → List RawQuestion)
    (hsh : ∀ l, (shuffle l).Perm l)
    (r : Bool × List RawQuestion × String)
    (hr : r = fetch_mixed_difficulty_questions counts category q_type encode
      outcome shuffle)
    (allQ : List RawQuestion) (errors : List String)
    (hco : (allQ, errors) =
      mixedCollect counts category q_type encode outcome) :
    ((fetchTasks counts category q_type encode).map (fun t => t.1) =
      ["easy", "medium", "hard"].filter (fun d => counts d != 0)) ∧
    ((["easy", "medium", "hard"].filter (fun d => counts d != 0)).Nodup) ∧
    (∀ d, d ∈ (fetchTasks counts category q_type encode).map (fun t => t.1) ↔
      (d ∈ (["easy", "medium", "hard"] : List String) ∧ counts d ≠ 0)) ∧
    (r.1 = true ↔ allQ ≠ []) ∧
    (r.1 = true ↔ r.2.1 ≠ []) ∧
    (allQ ≠ [] → r.2.1.Perm allQ) ∧
    (allQ ≠ [] → errors ≠ [] → r.1 = true ∧ r.2.2 ≠ "") ∧
    (allQ ≠ [] → errors = [] → r.2.2 = "") ∧
    (allQ = [] → r.1 = false ∧ r.2.1 = [] ∧
      r.2.2 = (if errors = [] then "No questions could be fetched"
               else String.intercalate " | " errors)) := by
  subst hr
  have hq : (mixedCollect counts category q_type encode outcome).1 = allQ := by
    rw [← hco]
  have he : (mixedCollect counts category q_type encode outcome).2 =
      errors := by
    rw [← hco]
  have hmain : fetch_mixed_difficulty_questions counts category q_type encode
      outcome shuffle =
      (if allQ ≠ [] then
        (if errors ≠ [] then
          (true, shuffle allQ,
           "Got " ++ toString (shuffle allQ).length ++
           " questions, but some requests failed: " ++
           String.intercalate "; " errors)
        else (true, shuffle allQ, ""))
      else if errors ≠ [] then (false, [], String.intercalate " | " errors)
      else (false, [], "No questions could be fetched")) := by
    simp only [fetch_mixed_difficulty_questions]
    rw [hq, he]
  rw [hmain]
  have hshne : allQ ≠ [] → shuffle allQ ≠ [] := by
    intro ha hcontra
    have hlen := (hsh allQ).length_eq
    rw [hcontra] at hlen
    simp only [List.length_nil] at hlen
    exact ha (List.length_eq_zero.mp hlen.symm)
  have hwarnne : ("Got " ++ toString (shuffle allQ).length ++
      " questions, but some requests failed: " ++
      String.intercalate "; " errors) ≠ "" :=
    string_append_left_ne_empty _ _ (string_append_left_ne_empty _ _
      (string_append_left_ne_empty _ _ (by decide)))
  have htasks : (fetchTasks counts category q_type encode).map
      (fun t => t.1) =
      ["easy", "medium", "hard"].filter (fun d => counts d != 0) := by
    rw [fetchTasks, List.map_map]
    exact List.map_id'' (fun x => rfl) _
  refine ⟨htasks, ?_, ?_, ?_, ?_, ?_, ?_, ?_, ?_⟩
  · exact (by decide :
      (["easy", "medium", "hard"] : List String).Nodup).filter _
  · intro d
    rw [htasks]
    simp [List.mem_filter]
  · by_cases ha : allQ = []
    · rw [if_neg (by simp [ha])]
      by_cases herr : errors = []
      · rw [if_neg (by simp [herr])]
        simp [ha]
      · rw [if_pos herr]
        simp [ha]
    · rw [if_pos ha]
      by_cases herr : errors = []
      · rw [if_neg (by simp [herr])]
        simp [ha]
      · rw [if_pos herr]
        simp [ha]
  · by_cases ha : allQ = []
    · rw [if_neg (by simp [ha])]
      by_cases herr : errors = []
      · rw [if_neg (by simp [herr])]
        simp
      · rw [if_pos herr]
        simp
    · rw [if_pos ha]
      have hs := hshne ha
      by_cases herr : errors = []
      · rw [if_neg (by simp [herr])]
        simp [hs]
      · rw [if_pos herr]
        simp [hs]
  · intro ha
    rw [if_pos ha]
    by_cases herr : errors = []
    · rw [if_neg (by simp [herr])]
      exact hsh allQ
    · rw [if_pos herr]
      exact hsh allQ
  · intro ha herr
    rw [if_pos ha, if_pos herr]
    exact ⟨rfl, hwarnne⟩
  · intro ha herr
    rw [if_pos ha, if_neg (by simp [herr])]
  · intro ha
    rw [if_neg (by simp [ha])]
    by_cases herr : errors = []
    · rw [if_neg (by simp [herr]), if_pos herr]
      exact ⟨rfl, rfl, rfl⟩
    · rw [if_pos herr, if_neg herr]
      exact ⟨rfl, rfl, rfl⟩

/-- Witness for C1: easy 3 / medium 0 / hard 2 with the hard tier failing:
two tasks are issued, the call succeeds with the three easy questions, and
the warning names the hard-tier failure. -/
theorem mixed_fetch_spec_witness :
    (fetch_mixed_difficulty_questions scenarioCounts "" "" "" scenarioOutcome
      id =
      (true, [scenarioQ 1, scenarioQ 2, scenarioQ 3],
       "Got 3 questions, but some requests failed: " ++
       "Failed to fetch hard questions: Request timeout")) ∧
    ((fetchTasks scenarioCounts "" "" "").map (fun t => t.1) =
      ["easy", "medium", "hard"].filter (fun d => scenarioCounts d != 0)) ∧
    ((fetch_mixed_difficulty_questions scenarioCounts "" "" "" scenarioOutcome
        id).1 = true ↔
      (mixedCollect scenarioCounts "" "" "" scenarioOutcome).1 ≠ []) :=
  ⟨by decide,
   (mixed_fetch_spec scenarioCounts "" "" "" scenarioOutcome id
     (fun l => List.Perm.refl l) _ rfl
     (mixedCollect scenarioCounts "" "" "" scenarioOutcome).1
     (mixedCollect scenarioCounts "" "" "" scenarioOutcome).2 rfl).1,
   (mixed_fetch_spec scenarioCounts "" "" "" scenarioOutcome id
     (fun l => List.Perm.refl l) _ rfl
     (mixedCollect scenarioCounts "" "" "" scenarioOutcome).1
     (mixedCollect scenarioCounts "" "" "" scenarioOutcome).2 rfl).2.2.2.1⟩

end Trivia

